import Mathlib

/-!
Shallow embedding of the BlockVote server (server.js) for verification.

The server is an Express application over a MySQL store.  We embed the
relevant tables as lists of records inside a single state `Db`, and the
two interesting request handlers as pure state-transition functions:

* `submitVote`   embeds the POST route for vote submission: the required
  field check, the election lookup and eligibility check, the candidate
  checks, transaction-hash generation, the ledger write, the vote-record
  write and the receipt construction.  External effects are made explicit
  parameters: `now` is the clock reading, `randomBytes` the output of the
  random source, `digest` the sha256 hex digest of the voter address
  concatenated with the clock, and `auditOk`, `ledgerOk`, `voteOk` say
  whether the corresponding storage writes succeed.
* `getResults`   embeds the GET results route: per-candidate verified
  vote counts, a total, and rounded percentages.  Percentages are
  represented exactly, in hundredths of a percent (so 50.00 percent is
  the number 5000), mirroring ROUND(x, 2) on a nonnegative value as
  round half up.
* `deleteElection` embeds the DELETE route for elections together with
  the referential constraint of the database schema (see its doc
  comment).

Request field values are JavaScript values (`JsVal`), because the
required-field check of the route tests JavaScript truthiness, not mere
presence.
-/

namespace BlockVote

/-- A JavaScript value as it can appear in a request body field.  `vUndef`
stands for a missing field (destructuring yields undefined). -/
inductive JsVal where
  | vNum (n : Int)
  | vStr (s : String)
  | vBool (b : Bool)
  | vNull
  | vUndef
  | vObj
deriving DecidableEq, Repr

/-- JavaScript truthiness of a value: 0, the empty string, false, null and
undefined are falsy; other numbers, nonempty strings, true and objects are
truthy. -/
def JsVal.truthy : JsVal → Bool
  | .vNum n => n != 0
  | .vStr s => s != ""
  | .vBool b => b
  | .vNull => false
  | .vUndef => false
  | .vObj => true

/-- Matching of a request-supplied identifier value against a numeric
database identifier, as MySQL parameter coercion does it: a number matches
by value, a numeric string by its numeric value, other values match
nothing. -/
def idMatch : JsVal → Nat → Bool
  | .vNum n, i => n == (i : Int)
  | .vStr s, i => s.toNat? == some i
  | _, _ => false

/-- Row of the elections table (the fields the voting core reads). -/
structure Election where
  id : Nat
  status : String
  start_date : Int
  end_date : Int
deriving DecidableEq, Repr

/-- Row of the candidates table (the fields the voting core reads). -/
structure Candidate where
  id : Nat
  election_id : Nat
  name : String
  party : String
  photo_url : String
  is_active : Bool
deriving DecidableEq, Repr

/-- Row of the blockchain_transactions table. -/
structure BlockchainTransaction where
  id : Nat
  transaction_hash : String
  election_id : Nat
  voter_address : JsVal
  candidate_id : Nat
  vote_data : JsVal
  signature : JsVal
  status : String
deriving DecidableEq, Repr

/-- Row of the votes table. -/
structure Vote where
  id : Nat
  transaction_id : Nat
  election_id : Nat
  candidate_id : Nat
  voter_id : String
  verification_status : String
deriving DecidableEq, Repr

/-- Row of the audit_logs table (the fields the claims mention). -/
structure AuditLog where
  user_type : String
  action : String
  resource_type : String
deriving DecidableEq, Repr

/-- The database state: the five tables the voting core touches, plus the
auto-increment counters of the two tables whose inserted id the code
reads back. -/
structure Db where
  elections : List Election
  candidates : List Candidate
  transactions : List BlockchainTransaction
  votes : List Vote
  audit_logs : List AuditLog
  nextTxId : Nat
  nextVoteId : Nat
deriving DecidableEq, Repr

/-- Append one audit row (an INSERT into audit_logs). -/
def appendAudit (db : Db) (user_type action resource_type : String) : Db :=
  { db with audit_logs := db.audit_logs ++ [⟨user_type, action, resource_type⟩] }

/-- Lower-case hex digit for a value below 16, as Buffer hex encoding
renders it. -/
def hexDigitChar (n : Nat) : Char :=
  if n < 10 then Char.ofNat (48 + n) else Char.ofNat (87 + n)

/-- Two hex characters for one byte. -/
def byteToHex (b : Nat) : String :=
  String.mk [hexDigitChar (b / 16 % 16), hexDigitChar (b % 16)]

/-- Hex encoding of a byte sequence, as Buffer.toString renders it. -/
def bytesToHex : List Nat → String
  | [] => ""
  | b :: rest => byteToHex b ++ bytesToHex rest

/-- Transaction hash generation of the vote route: hex-encode the random
bytes, prefix the marker 0x, and defensively truncate to 64 characters if
the result were ever longer. -/
def genTransactionHash (bytes : List Nat) : String :=
  let h := "0x" ++ bytesToHex bytes
  if h.length > 64 then h.take 64 else h

/-- The eligibility decision of the vote route, in source order: first the
too-early check, then the too-late check, then the status check. -/
def eligibilityReason (status : String) (start_date end_date now : Int) : Option String :=
  if now < start_date then some "not_started"
  else if now > end_date then some "ended"
  else if status != "active" then some "inactive"
  else none

/-- The five request body fields of the vote route. -/
structure VoteReq where
  election_id : JsVal
  candidate_id : JsVal
  voter_address : JsVal
  vote_data : JsVal
  signature : JsVal
deriving DecidableEq, Repr

/-- The required-field check of the vote route: every field must be
truthy. -/
def VoteReq.allPresent (r : VoteReq) : Bool :=
  r.election_id.truthy && r.candidate_id.truthy && r.voter_address.truthy
    && r.vote_data.truthy && r.signature.truthy

/-- The receipt object returned on success. -/
structure Receipt where
  transaction_id : Nat
  transactionHash : String
  timestamp : Int
  election_id : JsVal
  verification_code : String
deriving DecidableEq, Repr

/-- The possible responses of the vote route. -/
inductive SubmitResult where
  | invalidInput
  | electionNotFound
  | notAccepting (reason : String) (status : String) (start_date end_date now : Int)
  | invalidCandidate
  | candidateWrongElection
  | candidateInactive
  | transactionCreationFailed
  | voteRecordingFailed
  | success (transaction_hash : String) (receipt : Receipt)
deriving DecidableEq, Repr

/-- The write phase of the vote route, reached after all checks passed:
insert the ledger transaction with status confirmed, then the vote record
with verification status verified, then build the receipt.  On a failing
ledger write, a best-effort audit row is written and a server error
returned; on a failing vote-record write the transaction remains and a
distinct server error is returned. -/
def recordVote (db : Db) (req : VoteReq) (now : Int) (randomBytes : List Nat) (digest : String)
    (auditOk ledgerOk voteOk : Bool) (election : Election) (candidate : Candidate) :
    SubmitResult × Db :=
  let transactionHash := genTransactionHash randomBytes
  if ledgerOk then
    let tx : BlockchainTransaction :=
      { id := db.nextTxId, transaction_hash := transactionHash, election_id := election.id,
        voter_address := req.voter_address, candidate_id := candidate.id,
        vote_data := req.vote_data, signature := req.signature, status := "confirmed" }
    let db1 : Db := { db with transactions := db.transactions ++ [tx], nextTxId := db.nextTxId + 1 }
    if voteOk then
      let voterHash := digest.take 12
      let voteRow : Vote :=
        { id := db1.nextVoteId, transaction_id := tx.id, election_id := election.id,
          candidate_id := candidate.id, voter_id := "ANON_" ++ voterHash,
          verification_status := "verified" }
      let db2 : Db := { db1 with votes := db1.votes ++ [voteRow], nextVoteId := db1.nextVoteId + 1 }
      (.success transactionHash
        { transaction_id := tx.id, transactionHash := transactionHash, timestamp := now,
          election_id := req.election_id, verification_code := voterHash }, db2)
    else (.voteRecordingFailed, db1)
  else
    (.transactionCreationFailed,
     if auditOk then appendAudit db "system" "TRANSACTION_FAILED" "blockchain_transaction" else db)

/-- The vote submission route.  The clock reading, the random bytes, the
voter digest and the success of the three storage writes are explicit
parameters; everything else follows the source: required-field check,
election lookup, eligibility check (with a best-effort VOTE_REJECTED
audit row whose success never changes the response), candidate checks in
source order, then the write phase. -/
def submitVote (db : Db) (req : VoteReq) (now : Int) (randomBytes : List Nat) (digest : String)
    (auditOk ledgerOk voteOk : Bool) : SubmitResult × Db :=
  if req.allPresent then
    match db.elections.find? (fun e => idMatch req.election_id e.id) with
    | none => (.electionNotFound, db)
    | some election =>
      match eligibilityReason election.status election.start_date election.end_date now with
      | some reason =>
          (.notAccepting reason election.status election.start_date election.end_date now,
           if auditOk then appendAudit db "voter" "VOTE_REJECTED" "election" else db)
      | none =>
        match db.candidates.find? (fun c => idMatch req.candidate_id c.id) with
        | none => (.invalidCandidate, db)
        | some candidate =>
          if !(idMatch req.election_id candidate.election_id) then
            (.candidateWrongElection, db)
          else if !candidate.is_active then
            (.candidateInactive, db)
          else
            recordVote db req now randomBytes digest auditOk ledgerOk voteOk election candidate
  else (.invalidInput, db)

/-- Verification status test used by all tallying queries. -/
def isVerified (v : Vote) : Bool := v.verification_status == "verified"

/-- Per-candidate verified vote count of the results query: the LEFT JOIN
counts votes whose candidate_id is the candidate id and whose status is
verified (with no restriction on the election field of the vote). -/
def candidateVoteCount (db : Db) (cid : Nat) : Nat :=
  (db.votes.filter (fun v => cid == v.candidate_id && isVerified v)).length

/-- The denominator subquery of the results query: COUNT over the join of
verified votes with the candidates of the election (active or not), i.e.
for each verified vote, the number of candidate rows of the election
carrying its candidate id. -/
def electionTotalVotes (db : Db) (eid : Nat) : Nat :=
  (db.votes.map (fun v =>
    if isVerified v then
      (db.candidates.filter (fun c => c.id == v.candidate_id && c.election_id == eid)).length
    else 0)).sum

/-- ROUND(count * 100.0 / total, 2) on nonnegative values, represented in
hundredths of a percent: round half up of count * 10000 / total. -/
def roundPct2 (count total : Nat) : Nat := (20000 * count + total) / (2 * total)

/-- The percentage column: NULL (none) when the total is zero because of
NULLIF, otherwise the rounded percentage in hundredths of a percent. -/
def percentageOf (count total : Nat) : Option Nat :=
  if total = 0 then none else some (roundPct2 count total)

/-- One row of the results response. -/
structure ResultRow where
  id : Nat
  name : String
  party : String
  photo_url : String
  vote_count : Nat
  percentage : Option Nat
deriving DecidableEq, Repr

/-- The row computed for one active candidate of the election. -/
def mkResultRow (db : Db) (eid : Nat) (c : Candidate) : ResultRow :=
  { id := c.id, name := c.name, party := c.party, photo_url := c.photo_url,
    vote_count := candidateVoteCount db c.id,
    percentage := percentageOf (candidateVoteCount db c.id) (electionTotalVotes db eid) }

/-- Stable insertion keeping earlier rows with at least as many votes in
front: used to realize ORDER BY vote_count DESC. -/
def insertByCount (r : ResultRow) : List ResultRow → List ResultRow
  | [] => [r]
  | x :: xs => if r.vote_count ≤ x.vote_count then x :: insertByCount r xs else r :: x :: xs

/-- ORDER BY vote_count DESC as a stable sort. -/
def sortByCountDesc (l : List ResultRow) : List ResultRow := l.foldr insertByCount []

/-- The results response: the rows, and a total computed in the handler by
summing the vote_count fields of the rows. -/
structure ResultsResponse where
  total_votes : Nat
  candidates : List ResultRow
deriving DecidableEq, Repr

/-- The results route: one row per active candidate of the election,
sorted by descending vote count, and the total as the sum of the returned
per-row counts. -/
def getResults (db : Db) (eid : Nat) : ResultsResponse :=
  let rows := sortByCountDesc
    ((db.candidates.filter (fun c => c.election_id == eid && c.is_active)).map (mkResultRow db eid))
  { total_votes := (rows.map (fun r => r.vote_count)).sum, candidates := rows }

/-- Count of verified vote records carrying the given election id in the
votes table: the Vote Record Store count named by the reconciliation
claim. -/
def electionVerifiedRecordCount (db : Db) (eid : Nat) : Nat :=
  (db.votes.filter (fun v => v.election_id == eid && isVerified v)).length

/-- Count of verified vote records whose candidate id belongs to an active
candidate of the given election. -/
def activeCandVerifiedCount (db : Db) (eid : Nat) : Nat :=
  (db.votes.filter (fun v =>
    isVerified v && db.candidates.any (fun c => c.id == v.candidate_id && c.election_id == eid && c.is_active))).length

/-- Whether the ledger holds a transaction referencing the election. -/
def ledgerReferences (db : Db) (eid : Nat) : Bool :=
  db.transactions.any (fun tx => tx.election_id == eid)

/-- The possible responses of the election deletion route. -/
inductive DeleteResult where
  | dbError
  | notFound
  | deleted
deriving DecidableEq, Repr

/-- Modelled from the spec: the deletion route issues a plain DELETE on the
elections table, and the referential constraint that protects referenced
elections lives in the database schema file of the repository, which is
not under src (the repository README points to it as blockvote_schema.sql).
The spec states that an election is never deleted while referenced
transactions exist, so the delete statement fails with a database error,
reported as a server error, whenever the ledger holds a transaction
referencing the election; otherwise the row is removed, with a not-found
response when no row matched. -/
def deleteElection (db : Db) (eid : Nat) : DeleteResult × Db :=
  if ledgerReferences db eid then (.dbError, db)
  else
    let remaining := db.elections.filter (fun e => !(e.id == eid))
    if remaining.length == db.elections.length then (.notFound, db)
    else (.deleted, { db with elections := remaining })

/-- A present but JavaScript-falsy field value: the number 0, the empty
string, false, or null. -/
def falsyPresent (x : JsVal) : Prop :=
  x = .vNum 0 ∨ x = .vStr "" ∨ x = .vBool false ∨ x = .vNull

/-! Concrete sample states used by witnesses and counterexamples. -/

/-- An election in the draft status whose window has not started. -/
def draftElection : Election := { id := 1, status := "draft", start_date := 100, end_date := 200 }

/-- An active election with window 100 to 200. -/
def activeElection : Election := { id := 1, status := "active", start_date := 100, end_date := 200 }

/-- An active candidate of election 1. -/
def cand1 : Candidate :=
  { id := 10, election_id := 1, name := "Alice", party := "P1", photo_url := "", is_active := true }

/-- An active candidate of election 2. -/
def cand2 : Candidate :=
  { id := 20, election_id := 2, name := "Bob", party := "P2", photo_url := "", is_active := true }

/-- An inactive candidate of election 1. -/
def cand3 : Candidate :=
  { id := 30, election_id := 1, name := "Carol", party := "P3", photo_url := "", is_active := false }

/-- A well-formed request voting for candidate 10 in election 1. -/
def sampleReq : VoteReq :=
  { election_id := .vNum 1, candidate_id := .vNum 10, voter_address := .vStr "0xabc",
    vote_data := .vObj, signature := .vStr "sig" }

/-- A request voting for candidate 20, which belongs to election 2, in
election 1. -/
def wrongElectionReq : VoteReq :=
  { election_id := .vNum 1, candidate_id := .vNum 20, voter_address := .vStr "0xabc",
    vote_data := .vObj, signature := .vStr "sig" }

/-- State with the draft election only. -/
def draftDb : Db :=
  { elections := [draftElection], candidates := [cand1], transactions := [], votes := [],
    audit_logs := [], nextTxId := 1, nextVoteId := 1 }

/-- State with the active election and candidates of both elections. -/
def activeDb : Db :=
  { elections := [activeElection], candidates := [cand1, cand2, cand3], transactions := [],
    votes := [], audit_logs := [], nextTxId := 5, nextVoteId := 7 }

/-- A verified vote for candidate 30, the inactive candidate of
election 1, carrying election id 1. -/
def voteForInactive : Vote :=
  { id := 1, transaction_id := 1, election_id := 1, candidate_id := 30,
    voter_id := "ANON_aaaaaaaaaaaa", verification_status := "verified" }

/-- A verified vote for candidate 10, the active candidate of election 1,
carrying election id 1. -/
def voteForActive : Vote :=
  { id := 2, transaction_id := 2, election_id := 1, candidate_id := 10,
    voter_id := "ANON_bbbbbbbbbbbb", verification_status := "verified" }

/-- Reconciliation counterexample state: election 1 has one verified vote
record, but the vote references an inactive candidate, so no returned row
accounts for it. -/
def cexDb4 : Db :=
  { elections := [activeElection], candidates := [cand3], transactions := [],
    votes := [voteForInactive], audit_logs := [], nextTxId := 2, nextVoteId := 2 }

/-- Percentage counterexample state: election 1 holds one verified vote
for its active candidate 10 and one for its inactive candidate 30, so the
denominator of the percentage column is 2 while the returned total is 1. -/
def cexDb5 : Db :=
  { elections := [activeElection], candidates := [cand1, cand3], transactions := [],
    votes := [voteForInactive, voteForActive], audit_logs := [], nextTxId := 3, nextVoteId := 3 }

/-- A ledger transaction referencing election 1. -/
def sampleTx : BlockchainTransaction :=
  { id := 1, transaction_hash := "0xdeadbeef", election_id := 1, voter_address := .vStr "0xabc",
    candidate_id := 10, vote_data := .vObj, signature := .vStr "sig", status := "confirmed" }

/-- State in which election 1 is referenced by a ledger transaction. -/
def referencedDb : Db :=
  { elections := [activeElection], candidates := [cand1], transactions := [sampleTx],
    votes := [], audit_logs := [], nextTxId := 2, nextVoteId := 1 }

/-! Helper lemmas. -/

theorem byteToHex_length (b : Nat) : (byteToHex b).length = 2 := rfl

theorem bytesToHex_length (bs : List Nat) : (bytesToHex bs).length = 2 * bs.length := by
  induction bs with
  | nil => rfl
  | cons b rest ih =>
    simp only [bytesToHex, String.length_append, byteToHex_length, ih, List.length_cons]
    omega

theorem submitVote_notPresent (db : Db) (req : VoteReq) (now : Int) (randomBytes : List Nat)
    (digest : String) (auditOk ledgerOk voteOk : Bool) (h : req.allPresent = false) :
    submitVote db req now randomBytes digest auditOk ledgerOk voteOk = (.invalidInput, db) := by
  simp [submitVote, h]

/-! Claim theorems. -/

/-- Claim C3: for every list of 31 random bytes, the generated transaction
identifier, the hex encoding prefixed with the two-character marker 0x,
has rendered length exactly 64 characters, never exceeding the fixed
column capacity. -/
theorem genTransactionHash_length (bytes : List Nat) (h : bytes.length = 31) :
    (genTransactionHash bytes).length = 64 := by
  have hx : ("0x" ++ bytesToHex bytes).length = 64 := by
    simp only [String.length_append, bytesToHex_length, h]
    rfl
  simp [genTransactionHash, hx]

theorem genTransactionHash_length_witness :
    (List.replicate 31 (0 : Nat)).length = 31 ∧
    (genTransactionHash (List.replicate 31 (0 : Nat))).length = 64 :=
  ⟨by decide, genTransactionHash_length (List.replicate 31 (0 : Nat)) (by decide)⟩

/-- Claim C7: when any of the five required fields is missing from the
request body, the vote route answers with the missing-data client error
and performs no storage side effect at all: no ledger write, no
vote-record write, and no audit row. -/
theorem missing_field_no_side_effects (db : Db) (req : VoteReq) (now : Int)
    (randomBytes : List Nat) (digest : String) (auditOk ledgerOk voteOk : Bool)
    (h : req.election_id = .vUndef ∨ req.candidate_id = .vUndef ∨ req.voter_address = .vUndef
       ∨ req.vote_data = .vUndef ∨ req.signature = .vUndef) :
    submitVote db req now randomBytes digest auditOk ledgerOk voteOk = (.invalidInput, db) := by
  apply submitVote_notPresent
  rcases h with h | h | h | h | h <;> simp [VoteReq.allPresent, h, JsVal.truthy]

theorem missing_field_no_side_effects_witness :
    (VoteReq.mk (.vNum 1) (.vNum 1) (.vStr "0xabc") (.vObj) .vUndef).signature = .vUndef ∧
    submitVote (Db.mk [] [] [] [] [] 1 1)
      (VoteReq.mk (.vNum 1) (.vNum 1) (.vStr "0xabc") (.vObj) .vUndef) 0 [] "" true true true
      = (.invalidInput, Db.mk [] [] [] [] [] 1 1) :=
  ⟨by decide,
   missing_field_no_side_effects (Db.mk [] [] [] [] [] 1 1)
     (VoteReq.mk (.vNum 1) (.vNum 1) (.vStr "0xabc") (.vObj) .vUndef) 0 [] "" true true true
     (by decide)⟩

/-- Claim C10: the required-field check tests JavaScript falsiness, not
absence: a request whose field is present but falsy, for example a vote
payload of 0 or an empty-string signature, is rejected with the same
missing-data client error and no side effect, exactly as if the field
were missing. -/
theorem falsy_field_rejected_like_missing (db : Db) (req : VoteReq) (now : Int)
    (randomBytes : List Nat) (digest : String) (auditOk ledgerOk voteOk : Bool)
    (h : falsyPresent req.election_id ∨ falsyPresent req.candidate_id
       ∨ falsyPresent req.voter_address ∨ falsyPresent req.vote_data
       ∨ falsyPresent req.signature) :
    submitVote db req now randomBytes digest auditOk ledgerOk voteOk = (.invalidInput, db) := by
  apply submitVote_notPresent
  rcases h with (h | h | h | h) | (h | h | h | h) | (h | h | h | h)
    | (h | h | h | h) | (h | h | h | h) <;>
    simp [VoteReq.allPresent, h, JsVal.truthy]

theorem falsy_field_rejected_like_missing_witness :
    falsyPresent (VoteReq.mk (.vNum 1) (.vNum 1) (.vStr "0xabc") (.vNum 0) (.vStr "sig")).vote_data ∧
    submitVote (Db.mk [] [] [] [] [] 1 1)
      (VoteReq.mk (.vNum 1) (.vNum 1) (.vStr "0xabc") (.vNum 0) (.vStr "sig")) 0 [] "" true true true
      = (.invalidInput, Db.mk [] [] [] [] [] 1 1) :=
  ⟨Or.inl rfl,
   falsy_field_rejected_like_missing (Db.mk [] [] [] [] [] 1 1)
     (VoteReq.mk (.vNum 1) (.vNum 1) (.vStr "0xabc") (.vNum 0) (.vStr "sig")) 0 [] "" true true true
     (Or.inr (Or.inr (Or.inr (Or.inl (Or.inl rfl)))))⟩

/-- Claim C2: on an existing election, the eligibility rejection reason is
determined in the fixed source order: too early gives not_started, else
too late gives ended, else a non-active status gives inactive, else the
election is allowed.  The first conjunct carries no status hypothesis, so
a not yet started election is reported as not_started even when its
status is not active: the temporal checks take precedence. -/
theorem eligibility_reason_order (db : Db) (req : VoteReq) (now : Int)
    (randomBytes : List Nat) (digest : String) (auditOk ledgerOk voteOk : Bool)
    (e : Election) (hp : req.allPresent = true)
    (hf : db.elections.find? (fun x => idMatch req.election_id x.id) = some e) :
    (now < e.start_date →
       (submitVote db req now randomBytes digest auditOk ledgerOk voteOk).1 =
         .notAccepting "not_started" e.status e.start_date e.end_date now) ∧
    (e.start_date ≤ now → e.end_date < now →
       (submitVote db req now randomBytes digest auditOk ledgerOk voteOk).1 =
         .notAccepting "ended" e.status e.start_date e.end_date now) ∧
    (e.start_date ≤ now → now ≤ e.end_date → e.status ≠ "active" →
       (submitVote db req now randomBytes digest auditOk ledgerOk voteOk).1 =
         .notAccepting "inactive" e.status e.start_date e.end_date now) ∧
    (e.start_date ≤ now → now ≤ e.end_date → e.status = "active" →
       eligibilityReason e.status e.start_date e.end_date now = none) := by
  refine ⟨fun h1 => ?_, fun h1 h2 => ?_, fun h1 h2 h3 => ?_, fun h1 h2 h3 => ?_⟩
  · simp [submitVote, hp, hf, eligibilityReason, h1]
  · simp [submitVote, hp, hf, eligibilityReason, not_lt.mpr h1, h2]
  · simp [submitVote, hp, hf, eligibilityReason, not_lt.mpr h1, not_lt.mpr h2, h3]
  · simp [eligibilityReason, not_lt.mpr h1, not_lt.mpr h2, h3]

theorem eligibility_reason_order_witness :
    sampleReq.allPresent = true ∧
    draftDb.elections.find? (fun x => idMatch sampleReq.election_id x.id) = some draftElection ∧
    (submitVote draftDb sampleReq 50 [] "" true true true).1 =
      .notAccepting "not_started" "draft" 100 200 50 :=
  ⟨by decide, by decide,
   (eligibility_reason_order draftDb sampleReq 50 [] "" true true true draftElection
     (by decide) (by decide)).1 (by decide)⟩

/-- Claim C8: when the eligibility check rejects a submission, the caller
receives the same structured rejection, carrying the reason, the election
status, both window bounds and the evaluation instant, whether the best
effort VOTE_REJECTED audit write succeeds or fails: the audit outcome
never changes or masks the response. -/
theorem rejection_independent_of_audit (db : Db) (req : VoteReq) (now : Int)
    (randomBytes : List Nat) (digest : String) (ledgerOk voteOk : Bool)
    (e : Election) (reason : String) (hp : req.allPresent = true)
    (hf : db.elections.find? (fun x => idMatch req.election_id x.id) = some e)
    (hr : eligibilityReason e.status e.start_date e.end_date now = some reason) :
    ∀ auditOk : Bool,
      (submitVote db req now randomBytes digest auditOk ledgerOk voteOk).1 =
        .notAccepting reason e.status e.start_date e.end_date now := by
  intro auditOk
  simp [submitVote, hp, hf, hr]

theorem rejection_independent_of_audit_witness :
    (submitVote draftDb sampleReq 50 [] "" true true true).1 =
      .notAccepting "not_started" "draft" 100 200 50 ∧
    (submitVote draftDb sampleReq 50 [] "" false true true).1 =
      .notAccepting "not_started" "draft" 100 200 50 :=
  ⟨rejection_independent_of_audit draftDb sampleReq 50 [] "" true true draftElection
     "not_started" (by decide) (by decide) (by decide) true,
   rejection_independent_of_audit draftDb sampleReq 50 [] "" true true draftElection
     "not_started" (by decide) (by decide) (by decide) false⟩

/-- Claim C6: the candidate checks run in the fixed source order: an
absent candidate is rejected as invalid, then a candidate whose election
id differs from the submitted one is rejected as belonging to the wrong
election, then an inactive candidate is rejected as inactive.  In the
wrong-election case the state is returned unchanged, so no transaction is
written to the ledger. -/
theorem candidate_checks_order (db : Db) (req : VoteReq) (now : Int)
    (randomBytes : List Nat) (digest : String) (auditOk ledgerOk voteOk : Bool)
    (e : Election) (hp : req.allPresent = true)
    (hf : db.elections.find? (fun x => idMatch req.election_id x.id) = some e)
    (he : eligibilityReason e.status e.start_date e.end_date now = none) :
    (db.candidates.find? (fun c => idMatch req.candidate_id c.id) = none →
       submitVote db req now randomBytes digest auditOk ledgerOk voteOk =
         (.invalidCandidate, db)) ∧
    (∀ cand, db.candidates.find? (fun c => idMatch req.candidate_id c.id) = some cand →
       idMatch req.election_id cand.election_id = false →
       submitVote db req now randomBytes digest auditOk ledgerOk voteOk =
         (.candidateWrongElection, db)) ∧
    (∀ cand, db.candidates.find? (fun c => idMatch req.candidate_id c.id) = some cand →
       idMatch req.election_id cand.election_id = true → cand.is_active = false →
       submitVote db req now randomBytes digest auditOk ledgerOk voteOk =
         (.candidateInactive, db)) := by
  refine ⟨fun hc => ?_, fun cand hc hm => ?_, fun cand hc hm ha => ?_⟩
  · simp [submitVote, hp, hf, he, hc]
  · simp [submitVote, hp, hf, he, hc, hm]
  · simp [submitVote, hp, hf, he, hc, hm, ha]

theorem candidate_checks_order_witness :
    wrongElectionReq.allPresent = true ∧
    activeDb.candidates.find? (fun c => idMatch wrongElectionReq.candidate_id c.id) = some cand2 ∧
    idMatch wrongElectionReq.election_id cand2.election_id = false ∧
    submitVote activeDb wrongElectionReq 150 [] "" true true true =
      (.candidateWrongElection, activeDb) :=
  ⟨by decide, by decide, by decide,
   (candidate_checks_order activeDb wrongElectionReq 150 [] "" true true true activeElection
     (by decide) (by decide) (by decide)).2.1 cand2 (by decide) (by decide)⟩

/-- Claim C1: a valid submission succeeds: on an existing, active election
whose window contains the evaluation instant, with an existing active
candidate of that election and all five fields present, and with both
storage writes succeeding, the route appends exactly one ledger
transaction with status confirmed and one vote record with verification
status verified referencing that transaction, and returns a success whose
receipt carries the transaction hash of the stored transaction and the
submitted election id. -/
theorem submitVote_success (db : Db) (req : VoteReq) (now : Int)
    (randomBytes : List Nat) (digest : String) (auditOk : Bool)
    (e : Election) (cand : Candidate) (hp : req.allPresent = true)
    (hf : db.elections.find? (fun x => idMatch req.election_id x.id) = some e)
    (he : eligibilityReason e.status e.start_date e.end_date now = none)
    (hc : db.candidates.find? (fun c => idMatch req.candidate_id c.id) = some cand)
    (hm : idMatch req.election_id cand.election_id = true)
    (ha : cand.is_active = true) :
    ∃ tx voteRow receipt,
      (submitVote db req now randomBytes digest auditOk true true).1 =
        .success tx.transaction_hash receipt ∧
      (submitVote db req now randomBytes digest auditOk true true).2.transactions =
        db.transactions ++ [tx] ∧
      tx.status = "confirmed" ∧
      (submitVote db req now randomBytes digest auditOk true true).2.votes =
        db.votes ++ [voteRow] ∧
      voteRow.verification_status = "verified" ∧
      voteRow.transaction_id = tx.id ∧
      receipt.transactionHash = tx.transaction_hash ∧
      receipt.election_id = req.election_id := by
  refine ⟨{ id := db.nextTxId, transaction_hash := genTransactionHash randomBytes,
            election_id := e.id, voter_address := req.voter_address, candidate_id := cand.id,
            vote_data := req.vote_data, signature := req.signature, status := "confirmed" },
          { id := db.nextVoteId, transaction_id := db.nextTxId, election_id := e.id,
            candidate_id := cand.id, voter_id := "ANON_" ++ digest.take 12,
            verification_status := "verified" },
          { transaction_id := db.nextTxId, transactionHash := genTransactionHash randomBytes,
            timestamp := now, election_id := req.election_id,
            verification_code := digest.take 12 },
          ?_, ?_, rfl, ?_, rfl, rfl, rfl, rfl⟩ <;>
    simp [submitVote, hp, hf, he, hc, hm, ha, recordVote]

theorem submitVote_success_witness :
    ∃ tx voteRow receipt,
      (submitVote activeDb sampleReq 150 (List.replicate 31 7) "cafebabe1234" true true true).1 =
        .success tx.transaction_hash receipt ∧
      (submitVote activeDb sampleReq 150 (List.replicate 31 7) "cafebabe1234" true true true).2.transactions =
        activeDb.transactions ++ [tx] ∧
      tx.status = "confirmed" ∧
      (submitVote activeDb sampleReq 150 (List.replicate 31 7) "cafebabe1234" true true true).2.votes =
        activeDb.votes ++ [voteRow] ∧
      voteRow.verification_status = "verified" ∧
      voteRow.transaction_id = tx.id ∧
      receipt.transactionHash = tx.transaction_hash ∧
      receipt.election_id = sampleReq.election_id :=
  submitVote_success activeDb sampleReq 150 (List.replicate 31 7) "cafebabe1234" true
    activeElection cand1 (by decide) (by decide) (by decide) (by decide) (by decide) (by decide)

/-- Claim C9: an election is never deleted while the ledger holds a
transaction referencing it: in any such state the deletion route fails
with a database error and the election remains present.  The referential
constraint is modelled from the spec, since it lives in the database
schema file of the repository, which is not under src. -/
theorem referenced_election_not_deleted (db : Db) (eid : Nat)
    (tx : BlockchainTransaction) (e : Election)
    (htx : tx ∈ db.transactions) (hte : tx.election_id = eid)
    (he : e ∈ db.elections) (hid : e.id = eid) :
    e ∈ (deleteElection db eid).2.elections := by
  have href : ledgerReferences db eid = true := by
    simp only [ledgerReferences, List.any_eq_true]
    exact ⟨tx, htx, by simp [hte]⟩
  simpa [deleteElection, href] using he

theorem referenced_election_not_deleted_witness :
    sampleTx ∈ referencedDb.transactions ∧ sampleTx.election_id = 1 ∧
    activeElection ∈ referencedDb.elections ∧ activeElection.id = 1 ∧
    activeElection ∈ (deleteElection referencedDb 1).2.elections :=
  ⟨by decide, rfl, by decide, rfl,
   referenced_election_not_deleted referencedDb 1 sampleTx activeElection
     (by decide) rfl (by decide) rfl⟩

theorem insertByCount_perm (r : ResultRow) (l : List ResultRow) :
    (insertByCount r l).Perm (r :: l) := by
  induction l with
  | nil => exact List.Perm.refl _
  | cons x xs ih =>
    by_cases h : r.vote_count ≤ x.vote_count
    · simp only [insertByCount, if_pos h]
      exact (ih.cons x).trans (List.Perm.swap r x xs)
    · simp only [insertByCount, if_neg h]
      exact List.Perm.refl _

theorem sortByCountDesc_perm (l : List ResultRow) : (sortByCountDesc l).Perm l := by
  induction l with
  | nil => exact List.Perm.refl _
  | cons x xs ih => exact (insertByCount_perm x (sortByCountDesc xs)).trans (ih.cons x)

theorem countP_disjoint_or {α : Type} (l : List α) (p q : α → Bool)
    (h : ∀ x ∈ l, ¬(p x = true ∧ q x = true)) :
    l.countP (fun x => p x || q x) = l.countP p + l.countP q := by
  induction l with
  | nil => simp
  | cons a t ih =>
    have ht : ∀ x ∈ t, ¬(p x = true ∧ q x = true) :=
      fun x hx => h x (List.mem_cons_of_mem a hx)
    have ha := h a (List.mem_cons_self a t)
    cases hp : p a <;> cases hq : q a
    · simp [List.countP_cons, hp, hq, ih ht]
    · simp [List.countP_cons, hp, hq, ih ht]
      omega
    · simp [List.countP_cons, hp, hq, ih ht]
      omega
    · exact absurd ⟨hp, hq⟩ ha

theorem sum_candidate_counts (votes : List Vote) (cands : List Candidate)
    (h : (cands.map (fun c => c.id)).Nodup) :
    (cands.map (fun c =>
        (votes.filter (fun v => c.id == v.candidate_id && isVerified v)).length)).sum
      = (votes.filter (fun v =>
          isVerified v && cands.any (fun c => c.id == v.candidate_id))).length := by
  induction cands with
  | nil => simp
  | cons c cs ih =>
    rw [List.map_cons] at h
    have hnd := List.nodup_cons.mp h
    rw [List.map_cons, List.sum_cons, ih hnd.2]
    rw [← List.countP_eq_length_filter, ← List.countP_eq_length_filter,
        ← List.countP_eq_length_filter]
    have hcongr : votes.countP (fun v =>
          isVerified v && (c :: cs).any (fun x => x.id == v.candidate_id))
        = votes.countP (fun v =>
            (c.id == v.candidate_id && isVerified v)
              || (isVerified v && cs.any (fun x => x.id == v.candidate_id))) := by
      refine List.countP_congr fun v _ => ?_
      simp only [List.any_cons, Bool.and_or_distrib_left, Bool.or_eq_true, Bool.and_eq_true]
      constructor
      · rintro (⟨h1, h2⟩ | ⟨h1, h2⟩)
        · exact Or.inl ⟨h2, h1⟩
        · exact Or.inr ⟨h1, h2⟩
      · rintro (⟨h1, h2⟩ | ⟨h1, h2⟩)
        · exact Or.inl ⟨h2, h1⟩
        · exact Or.inr ⟨h1, h2⟩
    rw [hcongr, countP_disjoint_or votes _ _ ?_]
    rintro v _ ⟨h1, h2⟩
    rw [Bool.and_eq_true] at h1 h2
    rcases List.any_eq_true.mp h2.2 with ⟨x, hx, hxv⟩
    have hx1 : x.id = v.candidate_id := eq_of_beq hxv
    have hc1 : c.id = v.candidate_id := eq_of_beq h1.1
    exact hnd.1 (List.mem_map.mpr ⟨x, hx, hx1.trans hc1.symm⟩)

theorem any_filter_active (l : List Candidate) (eid cid : Nat) :
    ((l.filter (fun c => c.election_id == eid && c.is_active)).any (fun c => c.id == cid))
      = l.any (fun c => c.id == cid && c.election_id == eid && c.is_active) := by
  induction l with
  | nil => rfl
  | cons c cs ih =>
    cases hpc : (c.election_id == eid && c.is_active)
    · simp [List.filter_cons, hpc, List.any_cons, ih]
      intro h1 h2 h3
      rw [h2, h3] at hpc
      simp at hpc
    · simp only [List.filter_cons, hpc, if_true, List.any_cons, ih]
      rw [Bool.and_assoc, hpc, Bool.and_true]

/-- Claim C4 counterexample: in the state where election 1 holds one
verified vote record whose candidate is the inactive candidate 30 of that
election, the returned total and the sum of returned per-row counts are
both 0, while the Vote Record Store holds 1 verified record for the
election; the reconciliation stated by the claim fails. -/
theorem getResults_reconciliation_cex :
    ¬ ((getResults cexDb4 1).total_votes
          = ((getResults cexDb4 1).candidates.map (fun r => r.vote_count)).sum ∧
       ((getResults cexDb4 1).candidates.map (fun r => r.vote_count)).sum
          = electionVerifiedRecordCount cexDb4 1) := by decide

/-- Claim C4 amended: for every election, the returned total equals the
sum of the returned per-row vote counts, and (when candidate identifiers
are unique, as the primary key guarantees) this sum equals the number of
verified vote records whose candidate is an active candidate of the
election.  Verified records that merely carry the election id but
reference no active candidate of the election are not reconciled. -/
theorem getResults_reconciliation (db : Db) (eid : Nat)
    (h : (db.candidates.map (fun c => c.id)).Nodup) :
    (getResults db eid).total_votes
      = ((getResults db eid).candidates.map (fun r => r.vote_count)).sum ∧
    ((getResults db eid).candidates.map (fun r => r.vote_count)).sum
      = activeCandVerifiedCount db eid := by
  refine ⟨rfl, ?_⟩
  show ((sortByCountDesc
      ((db.candidates.filter (fun c => c.election_id == eid && c.is_active)).map
        (mkResultRow db eid))).map (fun r => r.vote_count)).sum
    = activeCandVerifiedCount db eid
  rw [((sortByCountDesc_perm _).map (fun r => r.vote_count)).sum_eq, List.map_map]
  show ((db.candidates.filter (fun c => c.election_id == eid && c.is_active)).map
      (fun c => (db.votes.filter
        (fun v => c.id == v.candidate_id && isVerified v)).length)).sum
    = activeCandVerifiedCount db eid
  have hnd : ((db.candidates.filter
      (fun c => c.election_id == eid && c.is_active)).map (fun c => c.id)).Nodup :=
    h.sublist ((List.filter_sublist db.candidates).map (fun c => c.id))
  rw [sum_candidate_counts db.votes _ hnd]
  simp only [any_filter_active]
  rfl

theorem getResults_reconciliation_witness :
    (cexDb5.candidates.map (fun c => c.id)).Nodup ∧
    ((getResults cexDb5 1).total_votes
        = ((getResults cexDb5 1).candidates.map (fun r => r.vote_count)).sum ∧
     ((getResults cexDb5 1).candidates.map (fun r => r.vote_count)).sum
        = activeCandVerifiedCount cexDb5 1) :=
  ⟨by decide, getResults_reconciliation cexDb5 1 (by decide)⟩

/-- Claim C5 counterexample: in the state where election 1 holds one
verified vote for its active candidate 10 and one for its inactive
candidate 30, the returned total is 1, yet the percentage of candidate 10
is 50.00 (the query divides by the subquery count 2), not the 100.00 the
claim computes from the returned total; so the percentage formula of the
claim, with its zero-total convention, fails. -/
theorem getResults_percentage_cex :
    ¬ (((getResults cexDb5 1).total_votes ≠ 0 →
          ∀ r ∈ (getResults cexDb5 1).candidates,
            r.percentage = some (roundPct2 r.vote_count (getResults cexDb5 1).total_votes)) ∧
       ((getResults cexDb5 1).total_votes = 0 →
          ∀ r ∈ (getResults cexDb5 1).candidates, r.percentage = none)) := by decide

/-- Claim C5 amended: every returned row carries percentage equal to
round(voteCount * 100 / D, 2 decimal places), represented in hundredths
of a percent, where D is the number of verified votes referencing any
candidate row (active or not) of the election, and percentage is null
rather than a division error whenever D is zero.  D coincides with the
returned total only when every such verified vote references an active
candidate. -/
theorem getResults_percentage (db : Db) (eid : Nat) :
    ∀ r ∈ (getResults db eid).candidates,
      r.percentage = (if electionTotalVotes db eid = 0 then none
        else some (roundPct2 r.vote_count (electionTotalVotes db eid))) := by
  intro r hr
  have hr2 : r ∈ (db.candidates.filter
      (fun c => c.election_id == eid && c.is_active)).map (mkResultRow db eid) :=
    ((sortByCountDesc_perm _).mem_iff).mp hr
  rcases List.mem_map.mp hr2 with ⟨c, hc, rfl⟩
  simp [mkResultRow, percentageOf]

theorem getResults_percentage_witness :
    (ResultRow.mk 10 "Alice" "P1" "" 1 (some 5000)) ∈ (getResults cexDb5 1).candidates ∧
    (ResultRow.mk 10 "Alice" "P1" "" 1 (some 5000)).percentage
      = (if electionTotalVotes cexDb5 1 = 0 then none
         else some (roundPct2 (ResultRow.mk 10 "Alice" "P1" "" 1 (some 5000)).vote_count
           (electionTotalVotes cexDb5 1))) :=
  ⟨by decide,
   getResults_percentage cexDb5 1 (ResultRow.mk 10 "Alice" "P1" "" 1 (some 5000)) (by decide)⟩

end BlockVote
